import Mathlib

/-!
Shallow embedding of the N3xx peripheral-manager control plane
(`mpm/python/usrp_mpm/periph_manager/n3xx.py`): the clock/time sync engine
(`set_sync_source`, `set_clock_source`, `set_time_source`,
`set_ref_clock_freq`), the transport-endpoint pool (`request_xport`,
`commit_xport`), and the status-monitor loop (`_monitor_status`,
`tear_down`).

Hardware collaborators (the TCA6424 GPIO expander, the motherboard register
block, the daughterboards, the White Rabbit core) are out of scope of the
repository's control plane; their invocations are recorded as events in an
ordered trace, and their observable inputs (lock status, FPGA type, RPC
connection mode) are parameters of an environment record.  Python exceptions
(`AssertionError` from `assert`, `RuntimeError`/`TypeError`/`ValueError`)
are modelled as an `Option Err` in the outcome; an outcome carries the state
and the trace of hardware calls issued before the exception, so partial
(non-rolled-back) sequences are observable.
-/

namespace N3xx

/-- A reference source string. `n3xx.get_clock_sources` returns a subset of
these, `n3xx.get_time_sources` all of them. -/
inductive Source where
  | internal
  | external
  | gpsdo
  | sfp0
deriving DecidableEq, Repr, Fintype

open Source

/-- `n3xx.get_clock_sources`: `('external', 'internal', 'gpsdo')`. -/
def get_clock_sources : List Source := [external, internal, gpsdo]

/-- `n3xx.get_time_sources`: `['internal', 'external', 'gpsdo', 'sfp0']`. -/
def get_time_sources : List Source := [internal, external, gpsdo, sfp0]

/-- `n3xx.valid_sync_sources`: the whitelist of hardware-realizable
`(clock_source, time_source)` pairs. -/
def valid_sync_sources : List (Source × Source) :=
  [(internal, internal), (internal, sfp0), (external, external),
   (external, internal), (gpsdo, gpsdo)]

/-- The mutable fields of an `n3xx` instance used by the claims:
`_tear_down`, `_ext_clock_freq` (Hz, `None` until set),
`_clock_source`/`_time_source` (`None` until first applied), and
`_available_endpoints` (initialized to `list(range(256))`). -/
structure State where
  tear_down : Bool
  ext_clock_freq : Option Nat
  clock_source : Option Source
  time_source : Option Source
  available_endpoints : List Nat
deriving DecidableEq, Repr

/-- A daughterboard handle: which duck-typed capabilities it has
(`set_clk_safe_state`, `get_ref_lock`), the value its `get_ref_lock`
returns, and whether its `update_ref_clock_freq` call succeeds. -/
structure DBoard where
  has_set_clk_safe_state : Bool
  has_get_ref_lock : Bool
  ref_lock : Bool
  update_ok : Bool
deriving DecidableEq, Repr

/-- Read-only collaborator inputs of the `n3xx` instance: the daughterboard
list `self.dboards`, `self.updateable_components['fpga']['type']`, the
White Rabbit core's lock status as observed at each poll attempt, and
`self.device_info['rpc_connection']`. -/
structure Env where
  dboards : List DBoard
  fpga_type : String
  wr_time_lock_status : Nat → Bool
  rpc_connection : String

/-- One hardware-facing call issued by the control plane, in issue order. -/
inductive HWOp where
  /-- `dboard.set_clk_safe_state()` on the given slot. -/
  | dbSafeState (slot : Nat)
  /-- `self.mboard_regs_control.enable_ref_clk(enable)`. -/
  | enableRefClk (enable : Bool)
  /-- `self._gpios.set(line)`. -/
  | gpioSet (line : String)
  /-- `self._gpios.reset(line)`. -/
  | gpioReset (line : String)
  /-- The assignment `self._clock_source = clock_source`. -/
  | recordClockSource (s : Source)
  /-- `time.sleep(ms / 1000)`. -/
  | sleepMs (ms : Nat)
  /-- The assignment `self._time_source = time_source`. -/
  | recordTimeSource (s : Source)
  /-- `self.mboard_regs_control.set_time_source(time_source, ref_clk_freq)`. -/
  | setTimeSourceReg (s : Source) (ref_clk_freq : Nat)
  /-- The `poll_with_timeout` loop over
  `wr_regs_control.get_time_lock_status()`. -/
  | wrPollLock
  /-- `dboard.update_ref_clock_freq(freq, time_source=t, clock_source=c)`
  on the given slot. -/
  | dbUpdateRefClockFreq (slot : Nat) (freq : Nat) (t c : Source)
  /-- `self._status_monitor_thread.join(timeout_ms / 1000)`. -/
  | joinThread (timeout_ms : Nat)
  /-- `self.log.error(...)`: a non-fatal report. -/
  | logError (msg : String)
deriving DecidableEq, Repr

/-- A raised Python exception. -/
inductive Err where
  | assertionError (msg : String)
  | runtimeError (msg : String)
  | typeError (msg : String)
  | valueError (msg : String)
deriving DecidableEq, Repr

/-- Result of a control-plane call: final field state, the ordered trace of
hardware calls that were issued, and the exception if one was raised.
Hardware calls issued before the exception stay in the trace: nothing is
rolled back. -/
structure Outcome where
  state : State
  trace : List HWOp
  error : Option Err
deriving DecidableEq, Repr

/-- The `args` dict of `set_sync_source`: each key optional
(`args.get(key, current)` defaults to the stored value). -/
structure SyncArgs where
  clock_source : Option Source
  time_source : Option Source
deriving DecidableEq, Repr

/-- `args.get(key, default)`. -/
def args_get : Option Source → Option Source → Option Source
  | some v, _ => some v
  | none, d => d

/-- `n3xx.get_clock_source`. -/
def get_clock_source (s : State) : Option Source := s.clock_source

/-- `n3xx.get_time_source`. -/
def get_time_source (s : State) : Option Source := s.time_source

/-- `n3xx.get_ref_clock_freq`: dict lookup on `self._clock_source`
(`internal ↦ 25e6`, `external ↦ self._ext_clock_freq`, `gpsdo ↦ 20e6`).
`none` stands for the paths where the Python expression has no numeric
value (a `KeyError` on a missing key, or `None` stored for external). -/
def get_ref_clock_freq (s : State) : Option Nat :=
  match s.clock_source with
  | some internal => some 25000000
  | some external => s.ext_clock_freq
  | some gpsdo => some 20000000
  | _ => none

/-- `enumerate(xs)` starting at `i`. -/
def enumerate (i : Nat) : List α → List (Nat × α)
  | [] => []
  | a :: l => (i, a) :: enumerate (i + 1) l

/-- The `set_clk_safe_state` loop of `set_sync_source`: for each slot, call
`dboard.set_clk_safe_state()` when the dboard has that attribute. -/
def db_safe_state_trace : List (Nat × DBoard) → List HWOp
  | [] => []
  | (slot, db) :: rest =>
      (if db.has_set_clk_safe_state then [HWOp.dbSafeState slot] else []) ++
        db_safe_state_trace rest

/-- The CLK-MAINSEL GPIO writes of `set_sync_source`, per clock source
(the `else` branch of the Python `if`/`elif` chain is `external`). -/
def mainsel_trace (cs : Source) : List HWOp :=
  match cs with
  | internal =>
      [HWOp.gpioSet "CLK-MAINSEL-EX_B", HWOp.gpioSet "CLK-MAINSEL-25MHz",
       HWOp.gpioReset "CLK-MAINSEL-GPS"]
  | gpsdo =>
      [HWOp.gpioSet "CLK-MAINSEL-EX_B", HWOp.gpioReset "CLK-MAINSEL-25MHz",
       HWOp.gpioSet "CLK-MAINSEL-GPS"]
  | _ =>
      [HWOp.gpioReset "CLK-MAINSEL-EX_B", HWOp.gpioReset "CLK-MAINSEL-GPS",
       HWOp.gpioSet "CLK-MAINSEL-25MHz"]

/-- The `update_ref_clock_freq` loop at the end of `set_sync_source`: calls
each dboard in slot order; a board-level failure raises and aborts the rest
of the loop. Returns the issued calls and the error, if any. -/
def db_update_trace : List (Nat × DBoard) → Nat → Source → Source →
    List HWOp × Option Err
  | [], _, _, _ => ([], none)
  | (slot, db) :: rest, freq, t, c =>
      if db.update_ok then
        let r := db_update_trace rest freq t c
        (HWOp.dbUpdateRefClockFreq slot freq t c :: r.1, r.2)
      else
        ([HWOp.dbUpdateRefClockFreq slot freq t c],
         some (Err.runtimeError "dboard update_ref_clock_freq failed"))

/-- `sfp_time_source_images = ('WX',)` in `set_sync_source`. -/
def sfp_time_source_images : List String := ["WX"]

/-- Modelled from the spec: `usrp_mpm.mpmutils.poll_with_timeout` is part of
this repository but not under `src/`. The spec says the caller "polls the
core's lock-status register until locked or a bounded timeout (40000 ms,
polled every 1000 ms) elapses", so the condition is evaluated once per
interval, starting at time zero, until the timeout elapses:
`timeout_ms / interval_ms + 1` evaluations in all. -/
def poll_with_timeout (f : Nat → Bool) (timeout_ms interval_ms : Nat) : Bool :=
  (List.range (timeout_ms / interval_ms + 1)).any f

/-- The apply sequence of `set_sync_source` (everything after the
`valid_sync_sources` assertion): dboard clock-safe states, ref-clock
disable, CLK-MAINSEL switches, `_clock_source` assignment, the
`get_ref_clock_freq` call in the debug log (a `TypeError` if the stored
external frequency is `None`), the 100 ms settle sleep, ref-clock
re-enable, `_time_source` assignment, the time-source register write, the
optional sfp0 checks and White Rabbit lock poll, and the dboard frequency
updates. -/
def apply_sync_source (env : Env) (s : State) (cs ts : Source) : Outcome :=
  let tr_pre := db_safe_state_trace (enumerate 0 env.dboards) ++
    [HWOp.enableRefClk false] ++ mainsel_trace cs ++ [HWOp.recordClockSource cs]
  let s1 : State := { s with clock_source := some cs }
  match get_ref_clock_freq s1 with
  | none =>
      ⟨s1, tr_pre, some (Err.typeError "unsupported operand type for NoneType")⟩
  | some ref_clk_freq =>
      let s2 : State := { s1 with time_source := some ts }
      let tr_mid := tr_pre ++
        [HWOp.sleepMs 100, HWOp.enableRefClk true, HWOp.recordTimeSource ts,
         HWOp.setTimeSourceReg ts ref_clk_freq]
      if ts = sfp0 then
        if get_clock_source s2 ≠ some internal then
          ⟨s2, tr_mid,
           some (Err.runtimeError "Time source sfp0 requires internal clock source")⟩
        else if env.fpga_type ∉ sfp_time_source_images then
          ⟨s2, tr_mid,
           some (Err.runtimeError "sfp0 time source requires FPGA types WX")⟩
        else if ¬ poll_with_timeout env.wr_time_lock_status 40000 1000 then
          ⟨s2, tr_mid ++ [HWOp.wrPollLock],
           some (Err.runtimeError "Failed to lock SFP timebase.")⟩
        else
          let r := db_update_trace (enumerate 0 env.dboards) ref_clk_freq ts cs
          ⟨s2, tr_mid ++ [HWOp.wrPollLock] ++ r.1, r.2⟩
      else
        let r := db_update_trace (enumerate 0 env.dboards) ref_clk_freq ts cs
        ⟨s2, tr_mid ++ r.1, r.2⟩

/-- `n3xx.set_sync_source`: resolve each source from `args` with the stored
value as default, assert membership in the supported lists, short-circuit
when the resolved pair equals the stored pair, assert whitelist membership,
then run the apply sequence. -/
def set_sync_source (env : Env) (s : State) (args : SyncArgs) : Outcome :=
  match args_get args.clock_source s.clock_source with
  | none => ⟨s, [], some (Err.assertionError "clock_source in get_clock_sources")⟩
  | some cs =>
      if cs ∉ get_clock_sources then
        ⟨s, [], some (Err.assertionError "clock_source in get_clock_sources")⟩
      else
        match args_get args.time_source s.time_source with
        | none => ⟨s, [], some (Err.assertionError "time_source in get_time_sources")⟩
        | some ts =>
            if ts ∉ get_time_sources then
              ⟨s, [], some (Err.assertionError "time_source in get_time_sources")⟩
            else if s.clock_source = some cs ∧ s.time_source = some ts then
              ⟨s, [], none⟩
            else if (cs, ts) ∉ valid_sync_sources then
              ⟨s, [], some (Err.assertionError "pair in valid_sync_sources")⟩
            else
              apply_sync_source env s cs ts

/-- `n3xx.set_clock_source`: assert both the argument and the stored time
source are not `None`; when the pair would fall outside the whitelist,
silently override the time source with the matching companion; delegate to
`set_sync_source`. -/
def set_clock_source (env : Env) (s : State) (clock_source : Option Source) :
    Outcome :=
  match clock_source with
  | none => ⟨s, [], some (Err.assertionError "clock_source is not None")⟩
  | some cs =>
      match s.time_source with
      | none => ⟨s, [], some (Err.assertionError "time_source is not None")⟩
      | some ts0 =>
          let ts :=
            if (cs, ts0) ∉ valid_sync_sources then
              match cs with
              | internal => internal
              | external => external
              | gpsdo => gpsdo
              | _ => ts0
            else ts0
          set_sync_source env s ⟨some cs, some ts⟩

/-- `n3xx.set_time_source`: assert the stored clock source and the argument
are not `None`; when the pair would fall outside the whitelist, silently
override the clock source with the matching companion; delegate to
`set_sync_source`. -/
def set_time_source (env : Env) (s : State) (time_source : Option Source) :
    Outcome :=
  match s.clock_source with
  | none => ⟨s, [], some (Err.assertionError "clock_source is not None")⟩
  | some cs0 =>
      match time_source with
      | none => ⟨s, [], some (Err.assertionError "time_source is not None")⟩
      | some ts =>
          let cs :=
            if (cs0, ts) ∉ valid_sync_sources then
              match ts with
              | sfp0 => internal
              | internal => internal
              | external => external
              | gpsdo => gpsdo
            else cs0
          set_sync_source env s ⟨some cs, some ts⟩

/-- `n3xx.set_ref_clock_freq`: reject frequencies outside
`(10e6, 20e6, 25e6)`; return unchanged when the frequency equals the stored
one; reject 20 MHz unless the current time source is external; store the
frequency; when the clock source is currently external, re-apply the
current time source via `set_time_source(get_time_source())`. -/
def set_ref_clock_freq (env : Env) (s : State) (freq : Nat) : Outcome :=
  if freq ∉ [10000000, 20000000, 25000000] then
    ⟨s, [],
     some (Err.runtimeError "not a supported external reference clock frequency")⟩
  else if s.ext_clock_freq = some freq then
    ⟨s, [], none⟩
  else if freq = 20000000 ∧ get_time_source s ≠ some external then
    ⟨s, [],
     some (Err.runtimeError "20 MHz is only allowed with external time_source")⟩
  else
    let s1 : State := { s with ext_clock_freq := some freq }
    if get_clock_source s1 = some external then
      set_time_source env s1 (get_time_source s1)
    else
      ⟨s1, [], none⟩

/-- The two transport backends of `self._xport_mgrs`, selected by
`self.device_info['rpc_connection']` (`'remote' ↦ udp`,
`'local' ↦ liberio`). -/
inductive XportBackend where
  | udp
  | liberio
deriving DecidableEq, Repr

/-- `SID(src_address << 16 | dst_address)` in `request_xport`. -/
def make_sid (src_address dst_address : Nat) : Nat :=
  src_address <<< 16 ||| dst_address

/-- Modelled from the spec: `usrp_mpm.mpmtypes.SID` is part of this
repository but not under `src/`. The spec's TransportEndpoint carries a
one-byte `source_address`; `request_xport` packs it as
`SID(src_address << 16 | dst_address)`, so `sid.src_ep` extracts the byte
at bit offset 16. -/
def sid_src_ep (sid : Nat) : Nat :=
  (sid >>> 16) % 256

/-- `n3xx.request_xport`: prefer the suggested source address when it is in
`self._available_endpoints`; otherwise raise on an empty pool, else take
`self._available_endpoints[0]`; build the SID; assert the connection mode
and delegate to the matching backend. The pool is never written. -/
def request_xport (env : Env) (s : State)
    (dst_address suggested_src_address : Nat) :
    Except Err (State × Nat × XportBackend) :=
  let pick : Except Err Nat :=
    if suggested_src_address ∈ s.available_endpoints then
      Except.ok suggested_src_address
    else
      match s.available_endpoints with
      | [] =>
          Except.error
            (Err.runtimeError "Depleted pool of SID endpoints for this device")
      | a :: _ => Except.ok a
  match pick with
  | Except.error e => Except.error e
  | Except.ok src_address =>
      if env.rpc_connection = "remote" then
        Except.ok (s, make_sid src_address dst_address, XportBackend.udp)
      else if env.rpc_connection = "local" then
        Except.ok (s, make_sid src_address dst_address, XportBackend.liberio)
      else
        Except.error (Err.assertionError "rpc_connection in remote or local")

/-- `n3xx.commit_xport`: assert the connection mode, then
`self._available_endpoints.remove(sid.src_ep)` — Python `list.remove`
raises `ValueError` when the value is absent, else removes its first
occurrence — then delegate to the matching backend. -/
def commit_xport (env : Env) (s : State) (send_sid : Nat) :
    Except Err (State × XportBackend) :=
  if env.rpc_connection ≠ "remote" ∧ env.rpc_connection ≠ "local" then
    Except.error (Err.assertionError "rpc_connection in remote or local")
  else
    let src_ep := sid_src_ep send_sid
    if src_ep ∈ s.available_endpoints then
      let s1 : State :=
        { s with available_endpoints := s.available_endpoints.erase src_ep }
      if env.rpc_connection = "remote" then
        Except.ok (s1, XportBackend.udp)
      else
        Except.ok (s1, XportBackend.liberio)
    else
      Except.error (Err.valueError "list.remove(x): x not in list")

/-- `n3xx.deinit` resets the endpoint pool:
`self._available_endpoints = list(range(256))`. -/
def deinit_pool (s : State) : State :=
  { s with available_endpoints := List.range 256 }

/-- `N3XX_MONITOR_THREAD_INTERVAL = 1.0` second, in milliseconds. -/
def monitor_thread_interval_ms : Nat := 1000

/-- Control skeleton of the `n3xx._monitor_status` loop. `flag k` is the
value of `self._tear_down` at its `k`-th read; iteration `i` reads the flag
at the `while` test (read `2*i`; if set, exit without sampling), otherwise
performs one sampling cycle (GPS lock LED, then REF lock LED), then
`cond.wait_for(lambda: self._tear_down, interval)` re-reads the flag after
waiting at most one polling interval (read `2*i+1`; if set, break).
Returns the number of sampling cycles performed before exit, or `none`
when the loop has not exited within `fuel` iterations. -/
def monitor_status (flag : Nat → Bool) : Nat → Nat → Option Nat
  | _, 0 => none
  | i, fuel + 1 =>
      if flag (2 * i) then some 0
      else if flag (2 * i + 1) then some 1
      else (monitor_status flag (i + 1) fuel).map (· + 1)

/-- `n3xx.tear_down`: set `self._tear_down`, and when the device was fully
initialized, `join` the monitor thread with a `3 * interval` timeout; if
the thread is still alive afterwards, log an error (non-fatal) and
continue. Device-tree overlay removal is out of scope. Never raises. -/
def tear_down (device_initialized thread_alive_after_join : Bool)
    (s : State) : State × List HWOp :=
  let s1 : State := { s with tear_down := true }
  if device_initialized then
    (s1, [HWOp.joinThread (3 * monitor_thread_interval_ms)] ++
      (if thread_alive_after_join then
        [HWOp.logError "Could not terminate monitor thread"]
      else []))
  else
    (s1, [])

/-- The sync-source invariant: whenever both stored source fields are set,
the pair is in the `valid_sync_sources` whitelist. -/
def sync_inv (s : State) : Prop :=
  ∀ cs ts, s.clock_source = some cs → s.time_source = some ts →
    (cs, ts) ∈ valid_sync_sources

instance (s : State) : Decidable (sync_inv s) := by
  unfold sync_inv; infer_instance

/-! Concrete sample inputs used by the witness theorems. -/

/-- A daughterboard with both optional capabilities whose calls succeed. -/
def sample_db : DBoard := ⟨true, true, true, true⟩

/-- A remote-connected device with one daughterboard, an HG FPGA image and
a White Rabbit core that never locks. -/
def sample_env : Env := ⟨[sample_db], "HG", fun _ => false, "remote"⟩

/-- A remote-connected device with one daughterboard, a WX FPGA image and
a White Rabbit core that is locked from the first poll. -/
def sample_env_wx : Env := ⟨[sample_db], "WX", fun _ => true, "remote"⟩

/-- A remote-connected device with one daughterboard, a WX FPGA image and
a White Rabbit core that never locks. -/
def sample_env_wx_unlocked : Env := ⟨[sample_db], "WX", fun _ => false, "remote"⟩

/-- Post-initialization state: internal/internal, 10 MHz external reference
frequency recorded, full endpoint pool. -/
def sample_state : State :=
  ⟨false, some 10000000, some internal, some internal, List.range 256⟩

/-- State with external/external selected (reachable via
`set_sync_source`). -/
def sample_state_ext : State :=
  ⟨false, some 10000000, some external, some external, List.range 256⟩

/-- State whose stored external reference frequency is 20 MHz while the
time source is internal (reachable: `ext_clock_freq` comes straight from
the `ext_clock_freq` device argument at init). -/
def sample_state_20 : State :=
  ⟨false, some 20000000, some internal, some internal, List.range 256⟩

end N3xx

namespace N3xx

open Source

/-! ## Supporting lemmas -/

/-- Reaching the `valid_sync_sources` assertion with a pair outside the
whitelist raises before any hardware call and leaves the state unchanged. -/
lemma set_sync_source_whitelist_reject
    (env : Env) (s : State) (args : SyncArgs) (cs ts : Source)
    (hc : args_get args.clock_source s.clock_source = some cs)
    (ht : args_get args.time_source s.time_source = some ts)
    (hcl : cs ∈ get_clock_sources) (htl : ts ∈ get_time_sources)
    (hne : ¬(s.clock_source = some cs ∧ s.time_source = some ts))
    (hnv : (cs, ts) ∉ valid_sync_sources) :
    set_sync_source env s args =
      ⟨s, [], some (Err.assertionError "pair in valid_sync_sources")⟩ := by
  unfold set_sync_source
  rw [hc, ht]
  simp [hcl, htl, hne, hnv]

lemma enumerate_mem_snd {l : List α} :
    ∀ {i : Nat} {p : Nat × α}, p ∈ enumerate i l → p.2 ∈ l := by
  induction l with
  | nil => intro i p h; simp [enumerate] at h
  | cons a t ih =>
      intro i p h
      simp only [enumerate, List.mem_cons] at h
      rcases h with h | h
      · subst h; simp
      · exact List.mem_cons_of_mem _ (ih h)

/-- When every daughterboard's `update_ref_clock_freq` succeeds, the update
loop issues the call to every slot in order and raises nothing. -/
lemma db_update_trace_all_ok (f : Nat) (t c : Source) :
    ∀ l : List (Nat × DBoard), (∀ p ∈ l, p.2.update_ok) →
      db_update_trace l f t c =
        (l.map fun p => HWOp.dbUpdateRefClockFreq p.1 f t c, none) := by
  intro l
  induction l with
  | nil => intro _; rfl
  | cons p rest ih =>
      intro h
      obtain ⟨slot, db⟩ := p
      have hdb : db.update_ok := h (slot, db) (List.mem_cons_self _ _)
      have hrest := ih fun q hq => h q (List.mem_cons_of_mem _ hq)
      simp [db_update_trace, hdb, hrest]

/-- A valid pair with time source sfp0 has the internal clock source. -/
lemma valid_sfp0_clock_internal {cs : Source}
    (h : (cs, sfp0) ∈ valid_sync_sources) : cs = internal := by
  cases cs <;> simp_all [valid_sync_sources]

/-- Passing all validations reduces `set_sync_source` to the apply
sequence. -/
lemma set_sync_source_applies
    (env : Env) (s : State) (args : SyncArgs) (cs ts : Source)
    (hc : args_get args.clock_source s.clock_source = some cs)
    (ht : args_get args.time_source s.time_source = some ts)
    (hcl : cs ∈ get_clock_sources) (htl : ts ∈ get_time_sources)
    (hne : ¬(s.clock_source = some cs ∧ s.time_source = some ts))
    (hv : (cs, ts) ∈ valid_sync_sources) :
    set_sync_source env s args = apply_sync_source env s cs ts := by
  unfold set_sync_source
  rw [hc, ht]
  simp [hcl, htl, hne, hv]

/-- Once past the whitelist assertion (and with a supported clock source
and a recorded external frequency, as after device initialization), the
apply sequence always leaves both fields set to the new pair — also on
its sfp0 and daughterboard failure paths. -/
lemma apply_sync_source_state (env : Env) (s : State) (cs ts : Source)
    (hcl : cs ∈ get_clock_sources) (hfreq : s.ext_clock_freq ≠ none) :
    (apply_sync_source env s cs ts).state =
      { s with clock_source := some cs, time_source := some ts } := by
  unfold apply_sync_source
  cases hf : get_ref_clock_freq { s with clock_source := some cs } with
  | none =>
      exfalso
      cases cs <;> simp_all [get_ref_clock_freq, get_clock_sources]
  | some f =>
      simp only [hf]
      split <;> [skip; rfl]
      split <;> [rfl; skip]
      split <;> [rfl; skip]
      split <;> rfl

/-- `set_sync_source` either leaves the state unchanged or stores a
whitelisted pair (given a recorded external frequency, as after device
initialization). -/
lemma set_sync_source_state_cases (env : Env) (s : State) (args : SyncArgs)
    (hfreq : s.ext_clock_freq ≠ none) :
    (set_sync_source env s args).state = s ∨
    ∃ cs ts, (cs, ts) ∈ valid_sync_sources ∧
      (set_sync_source env s args).state =
        { s with clock_source := some cs, time_source := some ts } := by
  unfold set_sync_source
  cases hc : args_get args.clock_source s.clock_source with
  | none => left; rfl
  | some cs =>
      by_cases hcl : cs ∈ get_clock_sources
      · cases ht : args_get args.time_source s.time_source with
        | none => left; simp [hcl]
        | some ts =>
            by_cases htl : ts ∈ get_time_sources
            · by_cases heq : s.clock_source = some cs ∧ s.time_source = some ts
              · left; simp [hcl, htl, heq]
              · by_cases hv : (cs, ts) ∈ valid_sync_sources
                · right
                  refine ⟨cs, ts, hv, ?_⟩
                  simp only [hcl, htl, heq, hv, not_true_eq_false,
                    not_false_eq_true, if_true, if_false, ite_true, ite_false]
                  exact apply_sync_source_state env s cs ts hcl hfreq
                · left; simp [hcl, htl, heq, hv]
            · left; simp [hcl, htl]
      · left; simp [hcl]

/-- `set_sync_source` preserves the whitelist invariant. -/
lemma sync_inv_of_set_sync_source (env : Env) (s : State) (args : SyncArgs)
    (hfreq : s.ext_clock_freq ≠ none) (hinv : sync_inv s) :
    sync_inv (set_sync_source env s args).state := by
  rcases set_sync_source_state_cases env s args hfreq with h | ⟨cs, ts, hv, h⟩
  · rw [h]; exact hinv
  · rw [h]
    intro cs' ts' h1 h2
    simp only [Option.some.injEq] at h1 h2
    rw [← h1, ← h2]
    exact hv

/-! ## Claim theorems -/

/-- C1: a resolved pair whose components are each in the supported-source
lists but whose pair is outside `valid_sync_sources`, and which differs
from the stored pair, makes `set_sync_source` raise the whitelist
assertion with an empty hardware trace and unchanged stored fields. -/
theorem set_sync_source_rejects_offwhitelist_pair
    (env : Env) (s : State) (args : SyncArgs) (cs ts : Source)
    (hc : args_get args.clock_source s.clock_source = some cs)
    (ht : args_get args.time_source s.time_source = some ts)
    (hcl : cs ∈ get_clock_sources) (htl : ts ∈ get_time_sources)
    (hne : ¬(s.clock_source = some cs ∧ s.time_source = some ts))
    (hnv : (cs, ts) ∉ valid_sync_sources) :
    set_sync_source env s args =
      ⟨s, [], some (Err.assertionError "pair in valid_sync_sources")⟩ :=
  set_sync_source_whitelist_reject env s args cs ts hc ht hcl htl hne hnv

/-- Witness for C1: from internal/internal, requesting external/sfp0 (both
components supported, pair off the whitelist) is rejected with no writes. -/
theorem set_sync_source_rejects_offwhitelist_pair_witness :
    set_sync_source sample_env sample_state ⟨some external, some sfp0⟩ =
      ⟨sample_state, [], some (Err.assertionError "pair in valid_sync_sources")⟩ :=
  set_sync_source_rejects_offwhitelist_pair sample_env sample_state
    ⟨some external, some sfp0⟩ external sfp0 rfl rfl (by decide) (by decide)
    (by decide) (by decide)

/-- C2: when `set_sync_source` applies a new valid pair and every step
succeeds, the hardware calls happen in exactly this order: daughterboard
clock-safe states, reference-clock disable, CLK-MAINSEL GPIO writes,
clock-source recording, the fixed 100 ms settle sleep, reference-clock
re-enable, time-source recording, the time-source register write, the
optional sfp0 lock poll, then `update_ref_clock_freq` on every
daughterboard with the new frequency and the resolved source labels. -/
theorem set_sync_source_apply_order
    (env : Env) (s : State) (args : SyncArgs) (cs ts : Source) (f : Nat)
    (hc : args_get args.clock_source s.clock_source = some cs)
    (ht : args_get args.time_source s.time_source = some ts)
    (hcl : cs ∈ get_clock_sources) (htl : ts ∈ get_time_sources)
    (hne : ¬(s.clock_source = some cs ∧ s.time_source = some ts))
    (hv : (cs, ts) ∈ valid_sync_sources)
    (hf : get_ref_clock_freq { s with clock_source := some cs } = some f)
    (himg : ts = sfp0 → env.fpga_type ∈ sfp_time_source_images)
    (hlock : ts = sfp0 →
      poll_with_timeout env.wr_time_lock_status 40000 1000 = true)
    (hdb : ∀ db ∈ env.dboards, db.update_ok) :
    set_sync_source env s args =
      ⟨{ s with clock_source := some cs, time_source := some ts },
       db_safe_state_trace (enumerate 0 env.dboards) ++
         [HWOp.enableRefClk false] ++ mainsel_trace cs ++
         [HWOp.recordClockSource cs, HWOp.sleepMs 100, HWOp.enableRefClk true,
          HWOp.recordTimeSource ts, HWOp.setTimeSourceReg ts f] ++
         (if ts = sfp0 then [HWOp.wrPollLock] else []) ++
         (enumerate 0 env.dboards).map
           (fun p => HWOp.dbUpdateRefClockFreq p.1 f ts cs),
       none⟩ := by
  have hdb' : ∀ p ∈ enumerate 0 env.dboards, p.2.update_ok :=
    fun p hp => hdb p.2 (enumerate_mem_snd hp)
  have hupd := db_update_trace_all_ok f ts cs (enumerate 0 env.dboards) hdb'
  unfold set_sync_source
  rw [hc, ht]
  simp only [hcl, htl, hne, hv, not_true_eq_false, not_false_eq_true,
    if_true, if_false, ite_false, ite_true]
  by_cases hts : ts = sfp0
  · subst hts
    have hcs := valid_sfp0_clock_internal hv
    subst hcs
    simp [apply_sync_source, hf, himg rfl, hlock rfl, hupd, get_clock_source]
  · simp [apply_sync_source, hf, hts, hupd]

/-- Witness for C2: from internal/internal, applying external/external with
one capable daughterboard produces exactly the claimed sequence. -/
theorem set_sync_source_apply_order_witness :
    set_sync_source sample_env sample_state ⟨some external, some external⟩ =
      ⟨{ sample_state with
          clock_source := some external, time_source := some external },
       db_safe_state_trace (enumerate 0 sample_env.dboards) ++
         [HWOp.enableRefClk false] ++ mainsel_trace external ++
         [HWOp.recordClockSource external, HWOp.sleepMs 100,
          HWOp.enableRefClk true, HWOp.recordTimeSource external,
          HWOp.setTimeSourceReg external 10000000] ++
         (if external = sfp0 then [HWOp.wrPollLock] else []) ++
         (enumerate 0 sample_env.dboards).map
           (fun p => HWOp.dbUpdateRefClockFreq p.1 10000000 external external),
       none⟩ :=
  set_sync_source_apply_order sample_env sample_state
    ⟨some external, some external⟩ external external 10000000
    rfl rfl (by decide) (by decide) (by decide) (by decide) (by decide)
    (by decide) (by decide) (by decide)

/-- C4: resolving a differing pair with time source sfp0: a non-internal
clock source is rejected (at the whitelist assertion, since no such pair is
whitelisted); with the internal clock source, an FPGA image type outside
`sfp_time_source_images` raises after the earlier writes, which stay in the
trace un-rolled-back; with a supported image, the White Rabbit lock status
is polled with a 40000 ms timeout at a 1000 ms interval, and when it stays
unlocked for every poll in that budget the call raises a fatal error,
again keeping all earlier writes and the recorded pair. -/
theorem set_sync_source_sfp0_failures :
    (∀ (env : Env) (s : State) (cs : Source), cs ∈ get_clock_sources →
      cs ≠ internal →
      ¬(s.clock_source = some cs ∧ s.time_source = some sfp0) →
      set_sync_source env s ⟨some cs, some sfp0⟩ =
        ⟨s, [], some (Err.assertionError "pair in valid_sync_sources")⟩) ∧
    (∀ (env : Env) (s : State),
      ¬(s.clock_source = some internal ∧ s.time_source = some sfp0) →
      env.fpga_type ∉ sfp_time_source_images →
      set_sync_source env s ⟨some internal, some sfp0⟩ =
        ⟨{ s with clock_source := some internal, time_source := some sfp0 },
         db_safe_state_trace (enumerate 0 env.dboards) ++
           [HWOp.enableRefClk false] ++ mainsel_trace internal ++
           [HWOp.recordClockSource internal, HWOp.sleepMs 100,
            HWOp.enableRefClk true, HWOp.recordTimeSource sfp0,
            HWOp.setTimeSourceReg sfp0 25000000],
         some (Err.runtimeError "sfp0 time source requires FPGA types WX")⟩) ∧
    (∀ (env : Env) (s : State),
      ¬(s.clock_source = some internal ∧ s.time_source = some sfp0) →
      env.fpga_type ∈ sfp_time_source_images →
      (∀ i < 40000 / 1000 + 1, env.wr_time_lock_status i = false) →
      set_sync_source env s ⟨some internal, some sfp0⟩ =
        ⟨{ s with clock_source := some internal, time_source := some sfp0 },
         db_safe_state_trace (enumerate 0 env.dboards) ++
           [HWOp.enableRefClk false] ++ mainsel_trace internal ++
           [HWOp.recordClockSource internal, HWOp.sleepMs 100,
            HWOp.enableRefClk true, HWOp.recordTimeSource sfp0,
            HWOp.setTimeSourceReg sfp0 25000000, HWOp.wrPollLock],
         some (Err.runtimeError "Failed to lock SFP timebase.")⟩) := by
  refine ⟨?_, ?_, ?_⟩
  · intro env s cs hcl hcs hne
    have hnv : (cs, sfp0) ∉ valid_sync_sources := by
      cases cs <;> simp_all [valid_sync_sources]
    exact set_sync_source_whitelist_reject env s _ cs sfp0 rfl rfl hcl
      (by decide) hne hnv
  · intro env s hne himg
    rw [set_sync_source_applies env s ⟨some internal, some sfp0⟩ internal sfp0
      rfl rfl (by decide) (by decide) hne (by decide)]
    simp [apply_sync_source, get_ref_clock_freq, get_clock_source, himg]
  · intro env s hne himg hlock
    have hp : poll_with_timeout env.wr_time_lock_status 40000 1000 = false := by
      unfold poll_with_timeout
      simp only [List.any_eq_false, List.mem_range]
      intro i hi
      simp [hlock i hi]
    rw [set_sync_source_applies env s ⟨some internal, some sfp0⟩ internal sfp0
      rfl rfl (by decide) (by decide) hne (by decide)]
    simp [apply_sync_source, get_ref_clock_freq, get_clock_source, himg, hp]

/-- Witness for C4: from internal/internal, (external, sfp0) is rejected
with no writes; (internal, sfp0) on an HG image raises after the writes;
(internal, sfp0) on a WX image with a never-locking core raises the lock
timeout after the writes and the poll. -/
theorem set_sync_source_sfp0_failures_witness :
    (set_sync_source sample_env sample_state ⟨some external, some sfp0⟩ =
      ⟨sample_state, [],
       some (Err.assertionError "pair in valid_sync_sources")⟩) ∧
    (set_sync_source sample_env sample_state ⟨some internal, some sfp0⟩ =
      ⟨{ sample_state with
          clock_source := some internal, time_source := some sfp0 },
       db_safe_state_trace (enumerate 0 sample_env.dboards) ++
         [HWOp.enableRefClk false] ++ mainsel_trace internal ++
         [HWOp.recordClockSource internal, HWOp.sleepMs 100,
          HWOp.enableRefClk true, HWOp.recordTimeSource sfp0,
          HWOp.setTimeSourceReg sfp0 25000000],
       some (Err.runtimeError "sfp0 time source requires FPGA types WX")⟩) ∧
    (set_sync_source sample_env_wx_unlocked sample_state
        ⟨some internal, some sfp0⟩ =
      ⟨{ sample_state with
          clock_source := some internal, time_source := some sfp0 },
       db_safe_state_trace (enumerate 0 sample_env_wx_unlocked.dboards) ++
         [HWOp.enableRefClk false] ++ mainsel_trace internal ++
         [HWOp.recordClockSource internal, HWOp.sleepMs 100,
          HWOp.enableRefClk true, HWOp.recordTimeSource sfp0,
          HWOp.setTimeSourceReg sfp0 25000000, HWOp.wrPollLock],
       some (Err.runtimeError "Failed to lock SFP timebase.")⟩) :=
  ⟨set_sync_source_sfp0_failures.1 sample_env sample_state external
      (by decide) (by decide) (by decide),
   set_sync_source_sfp0_failures.2.1 sample_env sample_state
      (by decide) (by decide),
   set_sync_source_sfp0_failures.2.2 sample_env_wx_unlocked sample_state
      (by decide) (by decide) (by decide)⟩

/-- C9: with a post-initialization state (external frequency recorded),
the whitelist invariant on the stored pair is preserved by
`set_sync_source`; whenever `set_sync_source` passes validation it leaves
both fields set to exactly the validated pair — also when it later raises
at the sfp0 checks, the lock poll, or a daughterboard update; and
`set_clock_source` / `set_time_source` (which silently override the
companion source to stay on the whitelist) preserve the invariant too. -/
theorem sync_source_whitelist_invariant :
    (∀ (env : Env) (s : State) (args : SyncArgs), s.ext_clock_freq ≠ none →
      sync_inv s → sync_inv (set_sync_source env s args).state) ∧
    (∀ (env : Env) (s : State) (args : SyncArgs) (cs ts : Source),
      args_get args.clock_source s.clock_source = some cs →
      args_get args.time_source s.time_source = some ts →
      cs ∈ get_clock_sources → ts ∈ get_time_sources →
      ¬(s.clock_source = some cs ∧ s.time_source = some ts) →
      (cs, ts) ∈ valid_sync_sources → s.ext_clock_freq ≠ none →
      (set_sync_source env s args).state =
        { s with clock_source := some cs, time_source := some ts }) ∧
    (∀ (env : Env) (s : State) (c : Option Source), s.ext_clock_freq ≠ none →
      sync_inv s → sync_inv (set_clock_source env s c).state) ∧
    (∀ (env : Env) (s : State) (t : Option Source), s.ext_clock_freq ≠ none →
      sync_inv s → sync_inv (set_time_source env s t).state) := by
  refine ⟨?_, ?_, ?_, ?_⟩
  · intro env s args hfreq hinv
    exact sync_inv_of_set_sync_source env s args hfreq hinv
  · intro env s args cs ts hc ht hcl htl hne hv hfreq
    rw [set_sync_source_applies env s args cs ts hc ht hcl htl hne hv]
    exact apply_sync_source_state env s cs ts hcl hfreq
  · intro env s c hfreq hinv
    unfold set_clock_source
    cases c with
    | none => exact hinv
    | some cs =>
        cases hts : s.time_source with
        | none => exact hinv
        | some ts0 => exact sync_inv_of_set_sync_source env s _ hfreq hinv
  · intro env s t hfreq hinv
    unfold set_time_source
    cases hcs : s.clock_source with
    | none => exact hinv
    | some cs0 =>
        cases t with
        | none => exact hinv
        | some ts => exact sync_inv_of_set_sync_source env s _ hfreq hinv

/-- Witness for C9: each conjunct at a concrete post-init state — applying
gpsdo/gpsdo keeps the invariant; its stored pair is exactly gpsdo/gpsdo
even though the daughterboard update runs; `set_clock_source external` and
`set_time_source gpsdo` (which override the companion) keep the
invariant. -/
theorem sync_source_whitelist_invariant_witness :
    sync_inv (set_sync_source sample_env sample_state
      ⟨some gpsdo, some gpsdo⟩).state ∧
    (set_sync_source sample_env sample_state ⟨some gpsdo, some gpsdo⟩).state =
      { sample_state with
          clock_source := some gpsdo, time_source := some gpsdo } ∧
    sync_inv (set_clock_source sample_env sample_state (some external)).state ∧
    sync_inv (set_time_source sample_env sample_state (some gpsdo)).state :=
  ⟨sync_source_whitelist_invariant.1 sample_env sample_state
      ⟨some gpsdo, some gpsdo⟩ (by decide) (by decide),
   sync_source_whitelist_invariant.2.1 sample_env sample_state
      ⟨some gpsdo, some gpsdo⟩ gpsdo gpsdo rfl rfl (by decide) (by decide)
      (by decide) (by decide) (by decide),
   sync_source_whitelist_invariant.2.2.1 sample_env sample_state
      (some external) (by decide) (by decide),
   sync_source_whitelist_invariant.2.2.2 sample_env sample_state
      (some gpsdo) (by decide) (by decide)⟩

/-- C6: when the resolved pair (after defaulting missing fields from the
stored values) equals the stored pair, `set_sync_source` returns at the
short-circuit: no hardware calls, no error, state unchanged. -/
theorem set_sync_source_idempotent
    (env : Env) (s : State) (args : SyncArgs) (cs ts : Source)
    (hc : args_get args.clock_source s.clock_source = some cs)
    (ht : args_get args.time_source s.time_source = some ts)
    (hcl : cs ∈ get_clock_sources) (htl : ts ∈ get_time_sources)
    (heqc : s.clock_source = some cs) (heqt : s.time_source = some ts) :
    set_sync_source env s args = ⟨s, [], none⟩ := by
  unfold set_sync_source
  rw [hc, ht]
  simp [hcl, htl, heqc, heqt]

/-- Witness for C6: re-requesting the current internal/internal pair is a
no-op with an empty trace. -/
theorem set_sync_source_idempotent_witness :
    set_sync_source sample_env sample_state ⟨some internal, none⟩ =
      ⟨sample_state, [], none⟩ :=
  set_sync_source_idempotent sample_env sample_state ⟨some internal, none⟩
    internal internal rfl rfl (by decide) (by decide) rfl rfl

/-- C3 (code bug): `set_ref_clock_freq` documents that, with the external
clock source selected, re-applying the current time source "also updates
the dboards' rates" — but that re-application
(`set_time_source(get_time_source())`) hands `set_sync_source` the pair it
already stores, so the idempotent short-circuit returns before any
daughterboard call. At the failing input (external/external, one
daughterboard, frequency changed 10 MHz → 25 MHz) the call succeeds with
an empty hardware trace: no `update_ref_clock_freq` reaches any
daughterboard. -/
theorem set_ref_clock_freq_external_no_propagation :
    set_ref_clock_freq sample_env sample_state_ext 25000000 =
      ⟨{ sample_state_ext with ext_clock_freq := some 25000000 }, [], none⟩ ∧
    sample_env.dboards = [sample_db] := by
  exact ⟨rfl, rfl⟩

/-- C5 counterexample: requesting 20 MHz while the stored external
frequency is already 20 MHz and the time source is internal does NOT fail
— the no-op check precedes the time-source check. -/
theorem set_ref_clock_freq_20MHz_noop_counterexample :
    (set_ref_clock_freq sample_env sample_state_20 20000000).error = none ∧
    get_time_source sample_state_20 ≠ some external := by
  exact ⟨rfl, by decide⟩

/-- C5 (amended): `set_ref_clock_freq` raises for every frequency outside
{10e6, 20e6, 25e6}; it is a no-op (no state change, no hardware call) when
the frequency equals the stored one — this check precedes the 20 MHz
check; otherwise 20 MHz fails unless the current time source is
external. -/
theorem set_ref_clock_freq_validation :
    (∀ (env : Env) (s : State) (freq : Nat),
      freq ∉ [10000000, 20000000, 25000000] →
      set_ref_clock_freq env s freq =
        ⟨s, [],
         some (Err.runtimeError
           "not a supported external reference clock frequency")⟩) ∧
    (∀ (env : Env) (s : State) (freq : Nat),
      freq ∈ [10000000, 20000000, 25000000] → s.ext_clock_freq = some freq →
      set_ref_clock_freq env s freq = ⟨s, [], none⟩) ∧
    (∀ (env : Env) (s : State), s.ext_clock_freq ≠ some 20000000 →
      get_time_source s ≠ some external →
      set_ref_clock_freq env s 20000000 =
        ⟨s, [],
         some (Err.runtimeError
           "20 MHz is only allowed with external time_source")⟩) := by
  refine ⟨?_, ?_, ?_⟩
  · intro env s freq h
    unfold set_ref_clock_freq
    simp [h]
  · intro env s freq h hs
    unfold set_ref_clock_freq
    simp [h, hs]
  · intro env s h1 h2
    unfold set_ref_clock_freq
    simp [h1, h2]

/-- Witness for the amended C5: 30 MHz is rejected; re-telling the device
its stored 10 MHz is a no-op; 20 MHz with internal time source and a
different stored frequency is rejected. -/
theorem set_ref_clock_freq_validation_witness :
    (set_ref_clock_freq sample_env sample_state 30000000 =
      ⟨sample_state, [],
       some (Err.runtimeError
         "not a supported external reference clock frequency")⟩) ∧
    (set_ref_clock_freq sample_env sample_state 10000000 =
      ⟨sample_state, [], none⟩) ∧
    (set_ref_clock_freq sample_env sample_state 20000000 =
      ⟨sample_state, [],
       some (Err.runtimeError
         "20 MHz is only allowed with external time_source")⟩) :=
  ⟨set_ref_clock_freq_validation.1 sample_env sample_state 30000000
      (by decide),
   set_ref_clock_freq_validation.2.1 sample_env sample_state 10000000
      (by decide) rfl,
   set_ref_clock_freq_validation.2.2 sample_env sample_state
      (by decide) (by decide)⟩

/-- C7: `request_xport` picks the suggested source address when it is free;
otherwise, on a non-empty (sorted, as maintained by init/erase/deinit)
pool it picks the pool's first — lowest — free address; on an empty pool
it raises the resource-exhaustion error. In every case the state (and so
the free pool) passed back is the unmodified input state. -/
theorem request_xport_allocation :
    (∀ (env : Env) (s : State) (dst_address suggested_src_address : Nat),
      (env.rpc_connection = "remote" ∨ env.rpc_connection = "local") →
      suggested_src_address ∈ s.available_endpoints →
      ∃ b, request_xport env s dst_address suggested_src_address =
        Except.ok (s, make_sid suggested_src_address dst_address, b)) ∧
    (∀ (env : Env) (s : State) (dst_address suggested_src_address : Nat),
      (env.rpc_connection = "remote" ∨ env.rpc_connection = "local") →
      suggested_src_address ∉ s.available_endpoints →
      s.available_endpoints ≠ [] →
      s.available_endpoints.Sorted (· ≤ ·) →
      ∃ a b, request_xport env s dst_address suggested_src_address =
          Except.ok (s, make_sid a dst_address, b) ∧
        a ∈ s.available_endpoints ∧
        ∀ x ∈ s.available_endpoints, a ≤ x) ∧
    (∀ (env : Env) (s : State) (dst_address suggested_src_address : Nat),
      s.available_endpoints = [] →
      request_xport env s dst_address suggested_src_address =
        Except.error
          (Err.runtimeError "Depleted pool of SID endpoints for this device")) := by
  refine ⟨?_, ?_, ?_⟩
  · intro env s dst sugg hrpc hmem
    unfold request_xport
    rcases hrpc with h | h
    · exact ⟨XportBackend.udp, by simp [hmem, h]⟩
    · exact ⟨XportBackend.liberio, by simp [hmem, h]⟩
  · intro env s dst sugg hrpc hmem hne hsort
    cases hpool : s.available_endpoints with
    | nil => exact absurd hpool hne
    | cons a rest =>
        rw [hpool] at hsort
        rw [List.sorted_cons] at hsort
        have hamem : a ∈ a :: rest := List.mem_cons_self a rest
        have hmin : ∀ x ∈ a :: rest, a ≤ x := by
          intro x hx
          rcases List.mem_cons.mp hx with rfl | hx
          · exact le_refl x
          · exact hsort.1 x hx
        refine ⟨a, ?_⟩
        rcases hrpc with h | h
        · refine ⟨XportBackend.udp, ?_, hamem, hmin⟩
          unfold request_xport
          rw [hpool] at hmem ⊢
          simp [hmem, h]
        · refine ⟨XportBackend.liberio, ?_, hamem, hmin⟩
          unfold request_xport
          rw [hpool] at hmem ⊢
          simp [hmem, h]
  · intro env s dst sugg hpool
    unfold request_xport
    rw [hpool]
    simp

/-- Witness for C7: on the full 0..255 pool, suggestion 5 is granted;
after removing 0 from a small pool the lowest free address 1 is granted
when 0 is suggested; the empty pool raises. -/
theorem request_xport_allocation_witness :
    (∃ b, request_xport sample_env sample_state 16 5 =
      Except.ok (sample_state, make_sid 5 16, b)) ∧
    (∃ a b, request_xport sample_env
        { sample_state with available_endpoints := [1, 2, 3] } 16 0 =
        Except.ok ({ sample_state with available_endpoints := [1, 2, 3] },
          make_sid a 16, b) ∧
      a ∈ [1, 2, 3] ∧ ∀ x ∈ ([1, 2, 3] : List Nat), a ≤ x) ∧
    (request_xport sample_env
        { sample_state with available_endpoints := [] } 16 5 =
      Except.error
        (Err.runtimeError "Depleted pool of SID endpoints for this device")) :=
  ⟨request_xport_allocation.1 sample_env sample_state 16 5
      (Or.inl rfl) (by decide),
   request_xport_allocation.2.1 sample_env
      { sample_state with available_endpoints := [1, 2, 3] } 16 0
      (Or.inl rfl) (by decide) (by decide) (by decide),
   request_xport_allocation.2.2 sample_env
      { sample_state with available_endpoints := [] } 16 5 rfl⟩

/-- C8: `commit_xport` removes exactly the endpoint's source address from
the free pool (on a duplicate-free pool the erased list loses that address
and keeps every other address), and when the address is already absent the
call fails with the `list.remove` error, leaving the pool unchanged. -/
theorem commit_xport_removes_source_address :
    (∀ (env : Env) (s : State) (send_sid : Nat),
      (env.rpc_connection = "remote" ∨ env.rpc_connection = "local") →
      sid_src_ep send_sid ∈ s.available_endpoints →
      s.available_endpoints.Nodup →
      ∃ b, commit_xport env s send_sid =
          Except.ok
            ({ s with available_endpoints :=
                s.available_endpoints.erase (sid_src_ep send_sid) }, b) ∧
        sid_src_ep send_sid ∉
          s.available_endpoints.erase (sid_src_ep send_sid) ∧
        ∀ x, x ≠ sid_src_ep send_sid →
          (x ∈ s.available_endpoints.erase (sid_src_ep send_sid) ↔
            x ∈ s.available_endpoints)) ∧
    (∀ (env : Env) (s : State) (send_sid : Nat),
      (env.rpc_connection = "remote" ∨ env.rpc_connection = "local") →
      sid_src_ep send_sid ∉ s.available_endpoints →
      commit_xport env s send_sid =
        Except.error (Err.valueError "list.remove(x): x not in list")) := by
  constructor
  · intro env s sid hrpc hmem hnd
    have hnot : sid_src_ep sid ∉
        s.available_endpoints.erase (sid_src_ep sid) :=
      hnd.not_mem_erase
    have hoth : ∀ x, x ≠ sid_src_ep sid →
        (x ∈ s.available_endpoints.erase (sid_src_ep sid) ↔
          x ∈ s.available_endpoints) :=
      fun x hx => List.mem_erase_of_ne hx
    unfold commit_xport
    rcases hrpc with h | h
    · exact ⟨XportBackend.udp, by simp [h, hmem], hnot, hoth⟩
    · exact ⟨XportBackend.liberio, by simp [h, hmem], hnot, hoth⟩
  · intro env s sid hrpc hmem
    unfold commit_xport
    rcases hrpc with h | h <;> simp [h, hmem]

/-- Witness for C8: committing source address 5 on pool [4, 5, 6] yields
pool [4, 6]; re-committing 5 on [4, 6] fails. -/
theorem commit_xport_removes_source_address_witness :
    (∃ b, commit_xport sample_env
        { sample_state with available_endpoints := [4, 5, 6] }
        (make_sid 5 16) =
        Except.ok
          ({ sample_state with available_endpoints :=
              ([4, 5, 6] : List Nat).erase (sid_src_ep (make_sid 5 16)) },
            b) ∧
      sid_src_ep (make_sid 5 16) ∉
        ([4, 5, 6] : List Nat).erase (sid_src_ep (make_sid 5 16)) ∧
      ∀ x, x ≠ sid_src_ep (make_sid 5 16) →
        (x ∈ ([4, 5, 6] : List Nat).erase (sid_src_ep (make_sid 5 16)) ↔
          x ∈ ([4, 5, 6] : List Nat))) ∧
    (commit_xport sample_env
        { sample_state with available_endpoints := [4, 6] }
        (make_sid 5 16) =
      Except.error (Err.valueError "list.remove(x): x not in list")) :=
  ⟨commit_xport_removes_source_address.1 sample_env
      { sample_state with available_endpoints := [4, 5, 6] }
      (make_sid 5 16) (Or.inl rfl) (by decide) (by decide),
   commit_xport_removes_source_address.2 sample_env
      { sample_state with available_endpoints := [4, 6] }
      (make_sid 5 16) (Or.inl rfl) (by decide)⟩

/-- If the flag read at the start of some iteration is set, the loop exits
within that many further iterations, performing at most `fuel` more
sampling cycles. -/
lemma monitor_status_exits (flag : Nat → Bool) :
    ∀ (fuel i : Nat), flag (2 * (i + fuel)) = true →
      ∃ c, monitor_status flag i (fuel + 1) = some c ∧ c ≤ fuel := by
  intro fuel
  induction fuel with
  | zero =>
      intro i h
      rw [Nat.add_zero] at h
      exact ⟨0, by rw [monitor_status]; simp [h], le_refl 0⟩
  | succ n ih =>
      intro i h
      by_cases h0 : flag (2 * i)
      · exact ⟨0, by rw [monitor_status]; simp [h0], Nat.zero_le _⟩
      · by_cases h1 : flag (2 * i + 1)
        · exact ⟨1, by rw [monitor_status]; simp [h0, h1], by omega⟩
        · obtain ⟨c, hc, hle⟩ := ih (i + 1)
            (by rw [show 2 * (i + 1 + n) = 2 * (i + (n + 1)) by ring]; exact h)
          exact ⟨c + 1, by rw [monitor_status]; simp [h0, h1, hc], by omega⟩

/-- C10: once the tear-down flag is set (read index `t` on, with the flag
monotone, as a flag that is only ever set), the monitor loop exits by the
very next `cond.wait_for` observation — within one polling interval —
after at most one further sampling cycle: it returns within `t / 2 + 2`
iterations having sampled at most `t / 2 + 1` times, where up to `t / 2`
full cycles can predate the flag. And `tear_down` on an initialized device
sets the flag, joins the monitor thread with a `3 ×` interval timeout,
and when the thread is still alive afterwards it logs a non-fatal error
and returns normally. -/
theorem monitor_tear_down_prompt_exit :
    (∀ (flag : Nat → Bool) (t : Nat),
      (∀ m n, m ≤ n → flag m = true → flag n = true) → flag t = true →
      ∃ c, monitor_status flag 0 (t / 2 + 2) = some c ∧ c ≤ t / 2 + 1) ∧
    (∀ (s : State) (alive : Bool),
      tear_down true alive s =
        ({ s with tear_down := true },
         HWOp.joinThread (3 * monitor_thread_interval_ms) ::
           (if alive then
             [HWOp.logError "Could not terminate monitor thread"]
           else []))) := by
  constructor
  · intro flag t hmono ht
    have hflag : flag (2 * (0 + (t / 2 + 1))) = true := by
      refine hmono t (2 * (0 + (t / 2 + 1))) (by omega) ht
    exact monitor_status_exits flag (t / 2 + 1) 0 hflag
  · intro s alive
    cases alive <;> rfl

/-- Witness for C10: with the flag set from the very first read, the loop
exits immediately with zero sampling cycles, and `tear_down` on a
leaked-thread device emits the join and the non-fatal error report. -/
theorem monitor_tear_down_prompt_exit_witness :
    (∃ c, monitor_status (fun _ => true) 0 (0 / 2 + 2) = some c ∧
      c ≤ 0 / 2 + 1) ∧
    tear_down true true sample_state =
      ({ sample_state with tear_down := true },
       HWOp.joinThread (3 * monitor_thread_interval_ms) ::
         (if true then [HWOp.logError "Could not terminate monitor thread"]
          else [])) :=
  ⟨monitor_tear_down_prompt_exit.1 (fun _ => true) 0
      (fun _ _ _ h => h) rfl,
   monitor_tear_down_prompt_exit.2 sample_state true⟩

end N3xx
